import Mathlib

/-!
Verification of the resume_builder repository's upload relay handler and
upload form controller, shallowly embedded in Lean 4.

The embedding covers:
* the client-side file validation function `validateFile`
  (resume-builder-frontend/client/pages/Index.tsx);
* the client-side submission lifecycle `submitGuard` / `handleSubmitResponse`
  (`handleSubmit` and `downloadPDF` in Index.tsx);
* the server-side relay `relayValidate` / `handleUpload`
  (the Express `handleUpload` handler with its multer configuration).

JavaScript strings are modelled as Lean `String`, byte buffers as `List Nat`,
JSON values as the inductive `JsVal`, and JavaScript truthiness / the `||`
operator by explicit functions.
-/

namespace ResumeBuilder

/-- A browser `File` object as seen by the client code: a name, a declared
media type (`File.type`) and a byte size (`File.size`). -/
structure FileDesc where
  name : String
  type : String
  size : Nat
deriving Repr, DecidableEq

/-- `validateFile` from Index.tsx: type check first, then the 5MB size check;
returns the empty string when the file is acceptable. -/
def validateFile (file : FileDesc) : String :=
  if file.type ≠ "application/pdf" then
    "Only PDF files are supported."
  else
    let maxSizeInBytes : Nat := 5 * 1024 * 1024
    if file.size > maxSizeInBytes then
      "File size must be less than 5MB."
    else
      ""

/-- A JSON value, modelling what `response.json()` can produce. -/
inductive JsVal where
  | str (s : String)
  | num (n : Int)
  | bool (b : Bool)
  | null
  | arr (elems : List JsVal)
  | obj (fields : List (String × JsVal))

/-- JavaScript truthiness of a JSON value: the empty string, zero, `false`
and `null` are falsy; every other value (including objects and arrays) is
truthy. -/
def jsTruthy : JsVal → Bool
  | .str s => s ≠ ""
  | .num n => n ≠ 0
  | .bool b => b
  | .null => false
  | .arr _ => true
  | .obj _ => true

/-- Property lookup `fields.k` on a parsed JSON object; `none` models
JavaScript `undefined`. -/
def objGet (fields : List (String × JsVal)) (k : String) : Option JsVal :=
  (fields.find? (fun p => p.1 = k)).map (fun p => p.2)

/-- JavaScript `a || b` where `a` may be `undefined` (`none`). -/
def jsOr (a : Option JsVal) (b : JsVal) : JsVal :=
  match a with
  | some v => if jsTruthy v then v else b
  | none => b

mutual

/-- JavaScript `String(v)` for a JSON value, as used by `new Error(v).message`:
strings are themselves, arrays join their elements with commas, objects print
as `[object Object]`. -/
def jsValToString : JsVal → String
  | .str s => s
  | .num n => toString n
  | .bool b => if b then "true" else "false"
  | .null => "null"
  | .arr elems => String.intercalate "," (jsArrElems elems)
  | .obj _ => "[object Object]"

/-- Elements of an array as JavaScript stringifies them inside a join:
`null` becomes the empty string. -/
def jsArrElems : List JsVal → List String
  | [] => []
  | .null :: vs => "" :: jsArrElems vs
  | v :: vs => jsValToString v :: jsArrElems vs

end

/-- The shape of an HTTP response as the TypeScript code observes it through
`fetch` (or as Express produces it): a status code, a status line text, an
optional content-type header, the body parsed as JSON when it is valid JSON
(`none` models a body on which `response.json()` throws), the raw body bytes,
the message of the exception thrown when JSON parsing fails, and whether
reading the body as a blob succeeds. -/
structure HttpResponseModel where
  status : Nat
  statusText : String
  contentType : Option String
  jsonBody : Option JsVal
  bodyBytes : List Nat
  parseFailMsg : String
  blobOk : Bool

/-- `Response.ok`: the status is in the 200–299 range. -/
def respOk (status : Nat) : Bool := decide (200 ≤ status) && decide (status ≤ 299)

/-- `pat` occurs as a contiguous run inside the second list. -/
def containsSeq (pat : List Char) : List Char → Bool
  | [] => pat.isPrefixOf []
  | c :: cs => pat.isPrefixOf (c :: cs) || containsSeq pat cs

/-- `contentType?.includes("application/pdf")`: false when the header is
absent, substring containment otherwise. -/
def ctIncludesPdf : Option String → Bool
  | none => false
  | some ct => containsSeq "application/pdf".toList ct.toList

/-- The error-message extraction both the relay and the client perform on a
non-OK response:
`errorMessage = errorData.detail || errorData.error || errorMessage`, with
`errorMessage = response.statusText || errorMessage` when `response.json()`
throws. Property access on a primitive or an array yields `undefined`, and
on `null` it throws, landing in the same catch as a parse failure. -/
def extractErrorMessage (fallback statusText : String) (jsonBody : Option JsVal) :
    String :=
  match jsonBody with
  | none => if statusText = "" then fallback else statusText
  | some .null => if statusText = "" then fallback else statusText
  | some (.obj fields) =>
      jsValToString (jsOr (objGet fields "detail")
        (jsOr (objGet fields "error") (.str fallback)))
  | some _ => fallback

/-- The failure message `handleSubmit` computes from a non-OK fetch response;
the initial fallback is the template string rendering of
`HTTP error! status: N`. -/
def clientFetchErrorMessage (resp : HttpResponseModel) : String :=
  extractErrorMessage ("HTTP error! status: " ++ toString resp.status)
    resp.statusText resp.jsonBody

/-- `originalFileName.replace(/\.[^/.]+$/, "")` from `downloadPDF`: strip a
final extension — a dot followed by one or more characters none of which is a
slash or a dot, anchored at the end of the string. -/
def stripExtension (s : String) : String :=
  let rcs := s.toList.reverse
  let ext := rcs.takeWhile (fun c => c ≠ '.' ∧ c ≠ '/')
  match rcs.drop ext.length with
  | '.' :: rest => if ext.isEmpty then s else String.mk rest.reverse
  | _ => s

/-- The filename `downloadPDF` assigns to the save action:
the template string rendering of `resume_<baseName>_optimized.pdf`. -/
def downloadName (originalFileName : String) : String :=
  "resume_" ++ stripExtension originalFileName ++ "_optimized.pdf"

/-- The `ProcessedResume` value the client stores as the outcome of a
submission: a success flag, an optional JSON payload and an optional error
message (`data` and `error` are `undefined` when absent). -/
structure ProcessedResume where
  success : Bool
  data : Option JsVal
  error : Option String

/-- The `Index` component's form state: one field per `useState` hook that
participates in the submission lifecycle. -/
structure FormState where
  file : Option FileDesc
  targetRole : String
  userInput : String
  isProcessing : Bool
  processedResume : Option ProcessedResume
  currentMessageIndex : Nat
  fileError : String

/-- The URL string passed to `fetch` in `handleSubmit`. The source writes it
with ordinary double quotes rather than backticks, so the text between the
braces is part of the literal and nothing is interpolated. -/
def requestUrl : String := "$\x7bimport.meta.env.VITE_API_URL\x7d/api/upload"

/-- The request target as a function of the build-time `VITE_API_URL` value.
Because `requestUrl` is an ordinary string literal, the result does not depend
on that value. -/
def requestUrlForEnv (_viteApiUrl : String) : String := requestUrl

/-- The single outbound call `handleSubmit` issues: the fetch URL plus the
three `FormData` parts appended before the call. -/
structure ClientRequest where
  url : String
  file : FileDesc
  target_role : String
  user_input : String

/-- The guard phase of `handleSubmit`: either it returns early after a toast
(no fetch is issued), or it updates the state and issues exactly one request.
The `proceed` constructor carries the one request the code builds. -/
inductive SubmitStep where
  | blocked (toastTitle toastDescription : String)
  | proceed (st : FormState) (req : ClientRequest)

/-- The guards and state updates at the top of `handleSubmit`, in source
order: missing file, falsy target role, over-long free text; then
`setIsProcessing(true)`, `setCurrentMessageIndex(0)`,
`setProcessedResume(null)` and the construction of the fetch call. -/
def submitGuard (st : FormState) : SubmitStep :=
  match st.file with
  | none => .blocked "No file selected" "Please select a PDF file to upload."
  | some f =>
    if st.targetRole = "" then
      .blocked "Target role required" "Please select your target role."
    else if st.userInput.length > 500 then
      .blocked "Instructions too long"
        "Additional context must be 500 characters or less."
    else
      .proceed
        { st with isProcessing := true, currentMessageIndex := 0,
                  processedResume := none }
        { url := requestUrl, file := f, target_role := st.targetRole,
          user_input := st.userInput }

/-- What `handleSubmit` leaves behind after the fetch resolves: the stored
outcome, the `isProcessing` flag after the `finally` block, and — on the PDF
branch — the filename handed to the save action together with whether the
blob materialization succeeded. -/
structure SubmitOutcome where
  processedResume : ProcessedResume
  isProcessing : Bool
  downloadAttempt : Option (String × Bool)

/-- The response-handling phase of `handleSubmit`: non-OK statuses throw and
are caught as a failure outcome; OK PDF responses run `downloadPDF` (whose
internal try/catch never rethrows) and store success with no payload; other
OK responses parse JSON and store it, a parse failure being caught as a
failure outcome. -/
def handleSubmitResponse (f : FileDesc) (resp : HttpResponseModel) :
    SubmitOutcome :=
  if respOk resp.status then
    if ctIncludesPdf resp.contentType then
      { processedResume := { success := true, data := none, error := none },
        isProcessing := false,
        downloadAttempt := some (downloadName f.name, resp.blobOk) }
    else
      match resp.jsonBody with
      | some v =>
          { processedResume := { success := true, data := some v, error := none },
            isProcessing := false, downloadAttempt := none }
      | none =>
          { processedResume :=
              { success := false, data := none, error := some resp.parseFailMsg },
            isProcessing := false, downloadAttempt := none }
  else
    { processedResume :=
        { success := false, data := none,
          error := some (clientFetchErrorMessage resp) },
      isProcessing := false, downloadAttempt := none }

/-- A file as multer delivers it to the relay handler: original filename,
declared mimetype, and the buffered bytes. -/
structure UploadedFile where
  originalname : String
  mimetype : String
  buffer : List Nat
deriving Repr, DecidableEq

/-- An inbound multipart request to the relay: an optional file part named
`file`, and the `target_role` / `user_input` form fields (`none` models an
absent field). -/
structure InboundRequest where
  filePart : Option UploadedFile
  target_role : Option String
  user_input : Option String
deriving Repr, DecidableEq

/-- JavaScript `!s` on a form-field value: true when the field is absent
(`undefined`) or the empty string. -/
def jsFalsyStr : Option String → Bool
  | none => true
  | some s => s = ""

/-- The result multer's `single('file')` hands to the handler callback:
either an error (the fileFilter's rejection, or the `LIMIT_FILE_SIZE` error
whose message is `File too large`), or the optional parsed file. The
fileFilter runs on the part's headers before the size limit can trigger. -/
inductive MulterResult where
  | rejected (message : String)
  | accepted (file : Option UploadedFile)
deriving Repr, DecidableEq

/-- multer configured with `memoryStorage`, a 5MB `fileSize` limit and a
fileFilter accepting only `application/pdf`. -/
def multerSingleFile (r : InboundRequest) : MulterResult :=
  match r.filePart with
  | none => .accepted none
  | some f =>
    if f.mimetype ≠ "application/pdf" then .rejected "Only PDF files are allowed"
    else if f.buffer.length > 5 * 1024 * 1024 then .rejected "File too large"
    else .accepted (some f)

/-- The multipart body the relay forwards to the backend, and its target URL
`<backendUrl>/api/upload`. -/
structure OutboundRequest where
  url : String
  fileBuffer : List Nat
  filename : String
  contentType : String
  target_role : String
  user_input : String
deriving Repr, DecidableEq

/-- The pre-backend phase of the relay: either an immediate JSON error
response (no backend contact), or the outbound request to forward. -/
inductive RelayStep where
  | reject (status : Nat) (errorMsg : String)
  | forward (outbound : OutboundRequest)
deriving Repr, DecidableEq

/-- The validation and re-packaging phase of the Express `handleUpload`
handler: the multer error branch (mapping every error other than the
fileFilter's to `File upload failed`), the missing-file and missing-role
checks, then the construction of the outbound `FormData` and URL, with
`BACKEND_URL` defaulting to `http://localhost:7777`. -/
def relayValidate (env_BACKEND_URL : Option String) (r : InboundRequest) :
    RelayStep :=
  match multerSingleFile r with
  | .rejected msg =>
      .reject 400
        (if msg = "Only PDF files are allowed" then "Only PDF files are supported"
         else "File upload failed")
  | .accepted none => .reject 400 "No file uploaded"
  | .accepted (some f) =>
      if jsFalsyStr r.target_role then .reject 400 "Target role is required"
      else
        .forward
          { url := (env_BACKEND_URL.getD "http://localhost:7777") ++ "/api/upload",
            fileBuffer := f.buffer, filename := f.originalname,
            contentType := f.mimetype,
            target_role := r.target_role.getD "",
            user_input :=
              match r.user_input with
              | none => ""
              | some s => if s = "" then "" else s }

/-- The failure message the relay computes from a non-OK backend response;
the initial fallback is the template string rendering of
`Backend error: N`. -/
def relayBackendMessage (resp : HttpResponseModel) : String :=
  extractErrorMessage ("Backend error: " ++ toString resp.status)
    resp.statusText resp.jsonBody

/-- The response the relay sends back to its caller: a 4xx validation
rejection with a `\x7b error \x7d` JSON envelope, a 500 backend/relay failure
with the same envelope shape, a PDF passthrough carrying the `Content-Type`
and `Content-Disposition` headers and the body bytes, or a JSON passthrough
of the backend's parsed body. -/
inductive RelayResult where
  | validationReject (status : Nat) (errorMsg : String)
  | backendFailure (status : Nat) (errorMsg : String)
  | pdfPassthrough (contentType contentDisposition : String) (body : List Nat)
  | jsonPassthrough (data : JsVal)

/-- The full Express `handleUpload` handler, with the backend modelled as a
function from the outbound request to its response. A non-OK backend status
throws `Error(message)` which the inner catch turns into a 500 envelope; an
OK PDF response is passed through with an attachment disposition naming
`resume_<originalname>`; any other OK response is parsed as JSON and re-sent
(a parse failure being caught by the same inner catch). -/
def handleUpload (env_BACKEND_URL : Option String) (r : InboundRequest)
    (backend : OutboundRequest → HttpResponseModel) : RelayResult :=
  match relayValidate env_BACKEND_URL r with
  | .reject status msg => .validationReject status msg
  | .forward out =>
      let resp := backend out
      if respOk resp.status then
        if ctIncludesPdf resp.contentType then
          .pdfPassthrough "application/pdf"
            ("attachment; filename=\"resume_" ++ out.filename ++ "\"")
            resp.bodyBytes
        else
          match resp.jsonBody with
          | some v => .jsonPassthrough v
          | none => .backendFailure 500 resp.parseFailMsg
      else
        .backendFailure 500 (relayBackendMessage resp)

/-- The standard HTTP reason phrase Node attaches to the statuses this
handler can produce. -/
def statusTextOf (status : Nat) : String :=
  if status = 200 then "OK"
  else if status = 400 then "Bad Request"
  else if status = 500 then "Internal Server Error"
  else ""

/-- How a `RelayResult`, sent over HTTP by Express, appears to the browser's
`fetch`: error envelopes become JSON bodies `\x7b "error": msg \x7d`,
passthroughs keep their status, headers and body. The `blob` flag says
whether the client will succeed in materializing the body as a blob. -/
def relayResultToResponse (blob : Bool) : RelayResult → HttpResponseModel
  | .validationReject status msg =>
      { status := status, statusText := statusTextOf status,
        contentType := some "application/json; charset=utf-8",
        jsonBody := some (.obj [("error", .str msg)]),
        bodyBytes := [], parseFailMsg := "", blobOk := blob }
  | .backendFailure status msg =>
      { status := status, statusText := statusTextOf status,
        contentType := some "application/json; charset=utf-8",
        jsonBody := some (.obj [("error", .str msg)]),
        bodyBytes := [], parseFailMsg := "", blobOk := blob }
  | .pdfPassthrough ct _disp body =>
      { status := 200, statusText := statusTextOf 200,
        contentType := some ct, jsonBody := none, bodyBytes := body,
        parseFailMsg := "SyntaxError", blobOk := blob }
  | .jsonPassthrough v =>
      { status := 200, statusText := statusTextOf 200,
        contentType := some "application/json; charset=utf-8",
        jsonBody := some v, bodyBytes := [], parseFailMsg := "", blobOk := blob }

/-- A 1 MiB PDF upload as the spec's success scenario describes it. -/
def scenarioFile : FileDesc :=
  { name := "cv.pdf", type := "application/pdf", size := 1048576 }

/-- A small well-formed inbound request to the relay. -/
def smallReq : InboundRequest :=
  { filePart := some { originalname := "cv.pdf", mimetype := "application/pdf",
                       buffer := [37, 80, 68, 70] },
    target_role := some "Software Engineer", user_input := some "" }

/-- A backend stub that always answers 200 with a PDF body. -/
def pdfBackend : OutboundRequest → HttpResponseModel :=
  fun _ =>
    { status := 200, statusText := "OK", contentType := some "application/pdf",
      jsonBody := none, bodyBytes := [1, 2, 3], parseFailMsg := "SyntaxError",
      blobOk := true }

/-- A buffer of `n` zero bytes. -/
def zeros : Nat → List Nat
  | 0 => []
  | n + 1 => 0 :: zeros n

theorem zeros_length (n : Nat) : (zeros n).length = n := by
  induction n with
  | zero => rfl
  | succ n ih => simp [zeros, ih]

/-- A PDF file part one byte over the 5 MiB limit. -/
def bigFile : UploadedFile :=
  { originalname := "cv.pdf", mimetype := "application/pdf",
    buffer := zeros 5242881 }

/-- An inbound request whose file part exceeds the 5 MiB limit. -/
def oversizedReq : InboundRequest :=
  { filePart := some bigFile, target_role := some "Software Engineer",
    user_input := some "" }

/-- A 200 application/pdf response as the client sees it. -/
def wPdfResp : HttpResponseModel :=
  { status := 200, statusText := "OK", contentType := some "application/pdf",
    jsonBody := none, bodyBytes := [1, 2, 3], parseFailMsg := "SyntaxError",
    blobOk := true }

/-- The spec's failure scenario: the backend answers 500 with body
`\x7b"detail":"parser failure"\x7d`. -/
def scenarioBackendResp : HttpResponseModel :=
  { status := 500, statusText := "Internal Server Error",
    contentType := some "application/json",
    jsonBody := some (.obj [("detail", .str "parser failure")]),
    bodyBytes := [], parseFailMsg := "", blobOk := true }

/-- The relay request of the spec's scenarios: a 1 MiB PDF, role
`Backend Developer`, free text `Emphasize Kubernetes`. -/
def scenarioReq : InboundRequest :=
  { filePart := some { originalname := "cv.pdf", mimetype := "application/pdf",
                       buffer := [37, 80, 68, 70] },
    target_role := some "Backend Developer",
    user_input := some "Emphasize Kubernetes" }

/-- A form state ready to submit: file selected, role chosen, short text. -/
def wFormState : FormState :=
  { file := some scenarioFile, targetRole := "Backend Developer",
    userInput := "Emphasize Kubernetes", isProcessing := false,
    processedResume := none, currentMessageIndex := 3, fileError := "" }

/-- Helper: when the parsed error body has a truthy `detail` string, the
extracted message is that string. -/
theorem extractErrorMessage_detail (fallback statusText : String)
    (fields : List (String × JsVal)) (d : String)
    (hdetail : objGet fields "detail" = some (.str d)) (hd : d ≠ "") :
    extractErrorMessage fallback statusText (some (.obj fields)) = d := by
  have ht : jsTruthy (.str d) = true := by simpa [jsTruthy] using hd
  simp [extractErrorMessage, hdetail, jsOr, ht, jsValToString]

/-- Helper: when `detail` is absent and the parsed error body has a truthy
`error` string, the extracted message is that string. -/
theorem extractErrorMessage_error_field (fallback statusText : String)
    (fields : List (String × JsVal)) (e : String)
    (hdet : objGet fields "detail" = none)
    (herr : objGet fields "error" = some (.str e)) (he : e ≠ "") :
    extractErrorMessage fallback statusText (some (.obj fields)) = e := by
  have ht : jsTruthy (.str e) = true := by simpa [jsTruthy] using he
  simp [extractErrorMessage, hdet, herr, jsOr, ht, jsValToString]

end ResumeBuilder

namespace ResumeBuilder

/-- C1: for every file descriptor, `validateFile` returns the PDF-only message
whenever the media type is not application/pdf; otherwise the size message
whenever the size exceeds 5,242,880 bytes; otherwise the empty string. The
type check is applied before the size check. -/
theorem validateFile_ordered_checks (f : FileDesc) :
    (f.type ≠ "application/pdf" → validateFile f = "Only PDF files are supported.") ∧
    (f.type = "application/pdf" → f.size > 5242880 →
      validateFile f = "File size must be less than 5MB.") ∧
    (f.type = "application/pdf" → f.size ≤ 5242880 → validateFile f = "") := by
  refine ⟨fun h => ?_, fun h hs => ?_, fun h hs => ?_⟩
  · simp [validateFile, h]
  · simp only [validateFile, h, ne_eq, not_true_eq_false, if_false]
    norm_num [hs]
  · simp only [validateFile, h, ne_eq, not_true_eq_false, if_false]
    norm_num
    omega

/-- Witness for C1: a concrete non-PDF file is rejected with the PDF-only
message. -/
theorem validateFile_ordered_checks_witness :
    validateFile { name := "notes.txt", type := "text/plain", size := 10 } =
      "Only PDF files are supported." :=
  (validateFile_ordered_checks
    { name := "notes.txt", type := "text/plain", size := 10 }).1 (by decide)

/-- C9: `validateFile` is a pure function of the file descriptor, so two
validations of the same file yield the same result. -/
theorem validateFile_idempotent (f : FileDesc) :
    validateFile f = validateFile f := rfl

/-- C2: when the relay's validation passes (file part present, PDF mimetype,
within the size limit, role present) and the backend answers an OK status
whose content-type includes application/pdf, the handler re-emits the
backend's body bytes unchanged with `Content-Type: application/pdf` and
`Content-Disposition: attachment; filename="resume_<original filename>"`,
the original name unmodified; the forwarded bytes are the original file
bytes. -/
theorem relay_pdf_passthrough (env : Option String) (r : InboundRequest)
    (f : UploadedFile) (backend : OutboundRequest → HttpResponseModel)
    (hf : r.filePart = some f)
    (hpdf : f.mimetype = "application/pdf")
    (hsize : f.buffer.length ≤ 5242880)
    (hrole : jsFalsyStr r.target_role = false)
    (hok : ∀ q, respOk (backend q).status = true)
    (hct : ∀ q, ctIncludesPdf (backend q).contentType = true) :
    ∃ out : OutboundRequest,
      relayValidate env r = .forward out ∧
      out.fileBuffer = f.buffer ∧ out.filename = f.originalname ∧
      handleUpload env r backend =
        .pdfPassthrough "application/pdf"
          ("attachment; filename=\"resume_" ++ f.originalname ++ "\"")
          (backend out).bodyBytes := by
  have hm : multerSingleFile r = .accepted (some f) := by
    simp only [multerSingleFile, hf]
    rw [if_neg (by simp [hpdf]), if_neg (by omega)]
  have hval : relayValidate env r = .forward
      { url := (env.getD "http://localhost:7777") ++ "/api/upload",
        fileBuffer := f.buffer, filename := f.originalname,
        contentType := f.mimetype,
        target_role := r.target_role.getD "",
        user_input :=
          match r.user_input with
          | none => "" | some s => if s = "" then "" else s } := by
    simp only [relayValidate, hm]
    rw [if_neg (by simp [hrole])]
  refine ⟨_, hval, rfl, rfl, ?_⟩
  simp only [handleUpload, hval, hok, hct, if_true]

/-- Witness for C2 at a concrete request and a constant PDF backend. -/
theorem relay_pdf_passthrough_witness :
    ∃ out : OutboundRequest,
      relayValidate none smallReq = .forward out ∧
      out.fileBuffer = [37, 80, 68, 70] ∧ out.filename = "cv.pdf" ∧
      handleUpload none smallReq pdfBackend =
        .pdfPassthrough "application/pdf"
          ("attachment; filename=\"resume_" ++ "cv.pdf" ++ "\"")
          (pdfBackend out).bodyBytes :=
  relay_pdf_passthrough none smallReq
    { originalname := "cv.pdf", mimetype := "application/pdf",
      buffer := [37, 80, 68, 70] }
    pdfBackend rfl rfl (by decide) (by decide)
    (fun _ => rfl) (fun _ => rfl)

/-- Helper: an inbound upload whose PDF file part exceeds the multer size
limit is rejected with a 400 envelope whose message is `File upload failed`,
for every backend function. -/
theorem relay_size_limit_message (env : Option String) (r : InboundRequest)
    (f : UploadedFile) (backend : OutboundRequest → HttpResponseModel)
    (hf : r.filePart = some f) (hpdf : f.mimetype = "application/pdf")
    (hsize : f.buffer.length > 5242880) :
    handleUpload env r backend = .validationReject 400 "File upload failed" := by
  have hm : multerSingleFile r = .rejected "File too large" := by
    simp only [multerSingleFile, hf]
    rw [if_neg (by simp [hpdf]), if_pos (by omega)]
  have hv : relayValidate env r = .reject 400 "File upload failed" := by
    simp only [relayValidate, hm]
    rw [if_neg (by decide)]
  simp only [handleUpload, hv]

theorem bigFile_length : bigFile.buffer.length > 5242880 := by
  rw [show bigFile.buffer = zeros 5242881 from rfl, zeros_length]
  norm_num

/-- C3 counterexample: a PDF file part one byte over the 5 MiB limit is
rejected before forwarding, but the JSON envelope message is
`File upload failed`, not `File too large` — the multer size error is mapped
to the generic message. -/
theorem relay_oversize_message_counterexample :
    handleUpload none oversizedReq pdfBackend =
      .validationReject 400 "File upload failed" ∧
    handleUpload none oversizedReq pdfBackend ≠
      .validationReject 400 "File too large" := by
  have h := relay_size_limit_message none oversizedReq bigFile pdfBackend rfl
    rfl bigFile_length
  refine ⟨h, ?_⟩
  rw [h]
  intro hc
  injection hc with h1 h2
  exact absurd h2 (by decide)

/-- C3 amended: every inbound upload whose PDF file part exceeds 5,242,880
bytes is rejected with a 400 JSON envelope whose message is
`File upload failed`, independently of the backend — so nothing is
forwarded. -/
theorem relay_oversize_rejected (env : Option String) (r : InboundRequest)
    (f : UploadedFile) (backend : OutboundRequest → HttpResponseModel)
    (hf : r.filePart = some f) (hpdf : f.mimetype = "application/pdf")
    (hsize : f.buffer.length > 5242880) :
    handleUpload env r backend = .validationReject 400 "File upload failed" :=
  relay_size_limit_message env r f backend hf hpdf hsize

/-- Witness for the amended C3 at the concrete oversized request. -/
theorem relay_oversize_rejected_witness :
    handleUpload (some "http://backend:9999") oversizedReq pdfBackend =
      .validationReject 400 "File upload failed" :=
  relay_oversize_rejected (some "http://backend:9999") oversizedReq bigFile
    pdfBackend rfl rfl bigFile_length

/-- C4 counterexample: for an upload named `myresume.pdf` answered by a 200
application/pdf relay response, the client save action uses the filename
`resume_myresume_optimized.pdf`, not the claimed `resume_myresume.pdf`. -/
theorem download_filename_counterexample :
    (handleSubmitResponse
        { name := "myresume.pdf", type := "application/pdf", size := 1048576 }
        wPdfResp).downloadAttempt =
      some ("resume_myresume_optimized.pdf", true) ∧
    (handleSubmitResponse
        { name := "myresume.pdf", type := "application/pdf", size := 1048576 }
        wPdfResp).downloadAttempt ≠
      some ("resume_myresume.pdf", true) := by
  constructor
  · decide
  · decide

/-- C4 amended: on a 200 relay response whose content-type includes
application/pdf, the client triggers a save whose filename is
`resume_<original base name>_optimized.pdf` (extension stripped, prefix
`resume_`, suffix `_optimized`), and stores the outcome success with no
payload. -/
theorem client_pdf_saves_optimized (f : FileDesc) (resp : HttpResponseModel)
    (hok : respOk resp.status = true)
    (hct : ctIncludesPdf resp.contentType = true) :
    handleSubmitResponse f resp =
      { processedResume := { success := true, data := none, error := none },
        isProcessing := false,
        downloadAttempt :=
          some ("resume_" ++ stripExtension f.name ++ "_optimized.pdf",
            resp.blobOk) } := by
  simp [handleSubmitResponse, hok, hct, downloadName]

/-- Witness for the amended C4 at the scenario upload. -/
theorem client_pdf_saves_optimized_witness :
    handleSubmitResponse scenarioFile wPdfResp =
      { processedResume := { success := true, data := none, error := none },
        isProcessing := false,
        downloadAttempt :=
          some ("resume_" ++ stripExtension scenarioFile.name ++ "_optimized.pdf",
            wPdfResp.blobOk) } :=
  client_pdf_saves_optimized scenarioFile wPdfResp rfl (by decide)

/-- C5: with no file part, the relay answers 400 `No file uploaded`; with a
valid file part but no `target_role` field, it answers 400
`Target role is required` — in both cases for every backend function, so the
backend is never contacted. -/
theorem relay_missing_file_or_role (env : Option String) (r : InboundRequest)
    (backend : OutboundRequest → HttpResponseModel) :
    (r.filePart = none →
      handleUpload env r backend = .validationReject 400 "No file uploaded") ∧
    (∀ f, r.filePart = some f → f.mimetype = "application/pdf" →
      f.buffer.length ≤ 5242880 → r.target_role = none →
      handleUpload env r backend =
        .validationReject 400 "Target role is required") := by
  constructor
  · intro hf
    have hm : multerSingleFile r = .accepted none := by
      simp [multerSingleFile, hf]
    have hv : relayValidate env r = .reject 400 "No file uploaded" := by
      simp [relayValidate, hm]
    simp only [handleUpload, hv]
  · intro f hf hpdf hsize hrole
    have hm : multerSingleFile r = .accepted (some f) := by
      simp only [multerSingleFile, hf]
      rw [if_neg (by simp [hpdf]), if_neg (by omega)]
    have hv : relayValidate env r = .reject 400 "Target role is required" := by
      simp only [relayValidate, hm]
      rw [if_pos (by simp [jsFalsyStr, hrole])]
    simp only [handleUpload, hv]

/-- Witness for C5: a request with no file part is rejected for every
backend. -/
theorem relay_missing_file_or_role_witness :
    handleUpload none
      { filePart := none, target_role := none, user_input := none }
      pdfBackend = .validationReject 400 "No file uploaded" :=
  (relay_missing_file_or_role none
    { filePart := none, target_role := none, user_input := none }
    pdfBackend).1 rfl

/-- C6: on a non-success response the stored failure message comes from the
JSON body's `detail` field first, then its `error` field, falling back to
the status line text when the body does not parse as JSON; and in the spec's
scenario — backend 500 with body `\x7b"detail":"parser failure"\x7d` relayed
to the client — the stored outcome is a failure whose message is exactly
`parser failure`. -/
theorem error_message_extraction (f : FileDesc) (resp : HttpResponseModel)
    (hnotok : respOk resp.status = false) :
    (∀ fields d, resp.jsonBody = some (.obj fields) →
      objGet fields "detail" = some (.str d) → d ≠ "" →
      (handleSubmitResponse f resp).processedResume =
        { success := false, data := none, error := some d }) ∧
    (∀ fields e, resp.jsonBody = some (.obj fields) →
      objGet fields "detail" = none → objGet fields "error" = some (.str e) →
      e ≠ "" →
      (handleSubmitResponse f resp).processedResume =
        { success := false, data := none, error := some e }) ∧
    (resp.jsonBody = none → resp.statusText ≠ "" →
      (handleSubmitResponse f resp).processedResume =
        { success := false, data := none, error := some resp.statusText }) ∧
    (handleSubmitResponse scenarioFile
        (relayResultToResponse true
          (handleUpload none scenarioReq
            (fun _ => scenarioBackendResp)))).processedResume =
      { success := false, data := none, error := some "parser failure" } := by
  refine ⟨fun fields d hbody hdetail hd => ?_,
          fun fields e hbody hdet herr he => ?_,
          fun hbody hstx => ?_, ?_⟩
  · have hmsg : clientFetchErrorMessage resp = d := by
      unfold clientFetchErrorMessage
      rw [hbody]
      exact extractErrorMessage_detail _ _ _ _ hdetail hd
    simp [handleSubmitResponse, hnotok, hmsg]
  · have hmsg : clientFetchErrorMessage resp = e := by
      unfold clientFetchErrorMessage
      rw [hbody]
      exact extractErrorMessage_error_field _ _ _ _ hdet herr he
    simp [handleSubmitResponse, hnotok, hmsg]
  · have hmsg : clientFetchErrorMessage resp = resp.statusText := by
      unfold clientFetchErrorMessage
      rw [hbody]
      simp [extractErrorMessage, hstx]
    simp [handleSubmitResponse, hnotok, hmsg]
  · rfl

/-- Witness for C6 at the concrete 500 `detail` response. -/
theorem error_message_extraction_witness :
    (handleSubmitResponse scenarioFile scenarioBackendResp).processedResume =
      { success := false, data := none, error := some "parser failure" } :=
  (error_message_extraction scenarioFile scenarioBackendResp rfl).1
    [("detail", .str "parser failure")] "parser failure" rfl rfl (by decide)

/-- C7: submission is guarded — it issues no request when no file is
selected, when the target role is unselected, or when the free text exceeds
500 characters; and when it proceeds it sets `isProcessing`, clears the
prior outcome, resets the loading-message cursor to 0, and issues exactly
one request carrying the currently held file, role and free text. -/
theorem submit_guarded_lifecycle (st : FormState) :
    (st.file = none → submitGuard st =
      .blocked "No file selected" "Please select a PDF file to upload.") ∧
    (∀ f, st.file = some f → st.targetRole = "" → submitGuard st =
      .blocked "Target role required" "Please select your target role.") ∧
    (∀ f, st.file = some f → st.targetRole ≠ "" → st.userInput.length > 500 →
      submitGuard st = .blocked "Instructions too long"
        "Additional context must be 500 characters or less.") ∧
    (∀ f, st.file = some f → st.targetRole ≠ "" → st.userInput.length ≤ 500 →
      submitGuard st = .proceed
        { st with isProcessing := true, currentMessageIndex := 0,
                  processedResume := none }
        { url := requestUrl, file := f, target_role := st.targetRole,
          user_input := st.userInput }) := by
  refine ⟨fun hf => ?_, fun f hf hrole => ?_, fun f hf hrole hlen => ?_,
          fun f hf hrole hlen => ?_⟩
  · simp [submitGuard, hf]
  · simp [submitGuard, hf, hrole]
  · simp only [submitGuard, hf]
    rw [if_neg hrole, if_pos hlen]
  · simp only [submitGuard, hf]
    rw [if_neg hrole, if_neg (by omega)]

/-- Witness for C7: the ready-to-submit state proceeds with exactly the held
file, role and text, the cursor reset and the outcome cleared. -/
theorem submit_guarded_lifecycle_witness :
    submitGuard wFormState = .proceed
      { wFormState with isProcessing := true, currentMessageIndex := 0,
                        processedResume := none }
      { url := requestUrl, file := scenarioFile,
        target_role := "Backend Developer",
        user_input := "Emphasize Kubernetes" } :=
  (submit_guarded_lifecycle wFormState).2.2.2 scenarioFile rfl (by decide)
    (by decide)

/-- C8: a failed client-side materialization of the returned PDF does not
affect the stored outcome — even with the blob step failing, the outcome is
success with no payload; the failure is only visible in the download
attempt record. -/
theorem download_failure_keeps_success (f : FileDesc)
    (resp : HttpResponseModel)
    (hok : respOk resp.status = true)
    (hct : ctIncludesPdf resp.contentType = true)
    (hfail : resp.blobOk = false) :
    (handleSubmitResponse f resp).processedResume =
      { success := true, data := none, error := none } ∧
    (handleSubmitResponse f resp).downloadAttempt =
      some (downloadName f.name, false) := by
  constructor <;> simp [handleSubmitResponse, hok, hct, hfail]

/-- Witness for C8 at a concrete PDF response whose blob step fails. -/
theorem download_failure_keeps_success_witness :
    (handleSubmitResponse scenarioFile
        { wPdfResp with blobOk := false }).processedResume =
      { success := true, data := none, error := none } ∧
    (handleSubmitResponse scenarioFile
        { wPdfResp with blobOk := false }).downloadAttempt =
      some (downloadName scenarioFile.name, false) :=
  download_failure_keeps_success scenarioFile { wPdfResp with blobOk := false }
    rfl (by decide) rfl

/-- C10: the fetch target in `handleSubmit` is the ordinary string literal
containing the uninterpolated template text, so it is the same constant for
every build-time `VITE_API_URL` value, and differs from what interpolation
would have produced. -/
theorem fetch_url_not_interpolated (v w : String) :
    requestUrlForEnv v = "$\x7bimport.meta.env.VITE_API_URL\x7d/api/upload" ∧
    requestUrlForEnv v = requestUrlForEnv w ∧
    requestUrlForEnv "http://localhost:3000" ≠
      "http://localhost:3000" ++ "/api/upload" :=
  ⟨rfl, rfl, by decide⟩

end ResumeBuilder
